import Mathlib

/-!
# device-simple-PTP: resource dispatch of the device driver

A shallow embedding of the driver callbacks of `src/main.cpp`
(`random_create_resource_attr`, `random_get_handler`, `random_put_handler`)
and the properties proved about them.

Conventions of the embedding:

* An out-parameter (`iot_data_t **exception`, the `readings` array, the
  `random_driver` behind `impl`) is passed in with its value before the call
  and handed back with its value after the call.
* A C array together with its length argument is a `List`; a `for` loop over
  the indices `i` walks the list of requests while carrying `i`.
* The callbacks are modelled as sequential code: `pthread_mutex_lock` and
  `pthread_mutex_unlock` bracket each access to `state_flag` and have no
  effect of their own on a single thread, so the mutex is not part of the
  state.
-/

namespace DeviceSimplePTP

/-! ## Data model -/

/-- Modelled from the spec: the values of `iot/data.h`, which is not among the
sources ("a typed payload (string, boolean, numeric)"). Only the scalar
variants the driver allocates or inspects are present; `i64` holds an
`int64_t`. -/
inductive iot_data where
  | i64 (v : Int)
  | bool (b : Bool)
  | string (s : String)
  deriving DecidableEq, Repr

/-- Modelled from the spec: the attribute bag, "an opaque mapping of named
attribute values", as the list of its key/value entries. -/
abbrev iot_data_map := List (String × iot_data)

/-- Modelled from the spec: `iot_data_string_map_get` of `iot/data.h`, the
value stored under `key`, or `NULL` (`none`) when the key is absent. -/
def iot_data_string_map_get (map : iot_data_map) (key : String) : Option iot_data :=
  List.lookup key map

/-- Modelled from the spec: `iot_data_string_map_get_i64` of `iot/data.h`, the
integer stored under `key`, or `dflt` when no integer is stored there. The
theorems below are stated for bags in which `SensorType` is absent or an
integer, so none of them rests on the result for a value of another type. -/
def iot_data_string_map_get_i64 (map : iot_data_map) (key : String) (dflt : Int) : Int :=
  match iot_data_string_map_get map key with
  | some (iot_data.i64 v) => v
  | _ => dflt

/-- Modelled from the spec: `iot_data_bool` of `iot/data.h`, the boolean held
by a boolean value. The library function requires a boolean value; on any
other value the result is `none`. -/
def iot_data_bool : iot_data → Option Bool
  | iot_data.bool b => some b
  | _ => none

/-- The tag `random_resourcetype`. The handlers read it through the untyped
`attrs` pointer of a resource (`*(random_resourcetype *)attrs`), so it is
modelled by the integer value of the enumeration, which may be any natural
number and not only one of the four enumerators. The driver itself only ever
stores one of the four enumerators (see `create_attr_tag_known`). -/
abbrev random_resourcetype := Nat

/-- Enumerator `RANDOM_R100` (value 0). -/
abbrev RANDOM_R100 : random_resourcetype := 0
/-- Enumerator `RANDOM_R1000` (value 1). -/
abbrev RANDOM_R1000 : random_resourcetype := 1
/-- Enumerator `RANDOM_R2000` (value 2). -/
abbrev RANDOM_R2000 : random_resourcetype := 2
/-- Enumerator `RANDOM_SW` (value 3). -/
abbrev RANDOM_SW : random_resourcetype := 3

/-- The mutable part of `struct random_driver`: the toggle `state_flag`. -/
structure random_driver where
  state_flag : Bool
  deriving DecidableEq, Repr

/-- The part of `devsdk_resource_t` the driver reads: the attribute object
made by `random_create_resource_attr`. -/
structure devsdk_resource where
  attrs : random_resourcetype
  deriving DecidableEq, Repr

/-- The part of `devsdk_commandrequest` the driver reads. -/
structure devsdk_commandrequest where
  resource : devsdk_resource
  deriving DecidableEq, Repr

/-- The part of `devsdk_commandresult` the driver writes: `value`, which is
`none` while no value has been stored. -/
structure devsdk_commandresult where
  value : Option iot_data
  deriving DecidableEq, Repr

/-! ## Attribute construction -/

/-- The message set when neither attribute is found. -/
def MSG_MISSING : String := "random: either SensorType or SwitchID attributes are required"

/-- The message set when `SensorType` is out of range. -/
def MSG_OUT_OF_RANGE : String := "random: out-of-range SensorType specified"

/-- The message set when a write targets a resource that is not the switch. -/
def MSG_PUT_NOT_VALID : String := "PUT not valid for this resource"

/-- Function `random_create_resource_attr`: the `switch` over
`iot_data_string_map_get_i64 (attributes, "SensorType", 0)`. The result is the
returned pointer (`none` for `NULL`, `some t` for a fresh object holding `t`;
the allocation is taken to succeed) and the value of `*exception` afterwards. -/
def random_create_resource_attr (attributes : iot_data_map) (exception : Option iot_data) :
    Option random_resourcetype × Option iot_data :=
  let sensorType := iot_data_string_map_get_i64 attributes "SensorType" 0
  if sensorType = 0 then
    if (iot_data_string_map_get attributes "SwitchID").isSome then
      (some RANDOM_SW, exception)
    else
      (none, some (iot_data.string MSG_MISSING))
  else if sensorType = 1 then
    (some RANDOM_R100, exception)
  else if sensorType = 2 then
    (some RANDOM_R1000, exception)
  else if sensorType = 3 then
    (some RANDOM_R2000, exception)
  else
    (none, some (iot_data.string MSG_OUT_OF_RANGE))

/-! ## Read handler -/

/-- What `random_get_handler` leaves behind: its return value, the driver, the
`readings` array and `*exception`. -/
structure get_result where
  ret : Bool
  driver : random_driver
  readings : List devsdk_commandresult
  exception : Option iot_data
  deriving DecidableEq, Repr

/-- One pass of the body of the `for` loop of `random_get_handler` at index
`i`: the `switch` over the tag of `requests[i]`. A tag that matches no `case`
leaves the loop body without storing anything. -/
def random_get_handler_body (var2 var3 var5 : String) (req : devsdk_commandrequest) (i : Nat)
    (driver : random_driver) (readings : List devsdk_commandresult) :
    random_driver × List devsdk_commandresult :=
  let t := req.resource.attrs
  if t = RANDOM_R100 then
    (driver, readings.set i ⟨some (iot_data.string var2)⟩)
  else if t = RANDOM_R1000 then
    (driver, readings.set i ⟨some (iot_data.string var3)⟩)
  else if t = RANDOM_R2000 then
    (driver, readings.set i ⟨some (iot_data.string var5)⟩)
  else if t = RANDOM_SW then
    (driver, readings.set i ⟨some (iot_data.bool driver.state_flag)⟩)
  else
    (driver, readings)

/-- The `for` loop of `random_get_handler` from index `i` on; the first
argument is the part of `requests` from index `i`. -/
def random_get_handler_loop (var2 var3 var5 : String) :
    List devsdk_commandrequest → Nat → random_driver → List devsdk_commandresult →
    random_driver × List devsdk_commandresult
  | [], _, driver, readings => (driver, readings)
  | req :: rest, i, driver, readings =>
    let step := random_get_handler_body var2 var3 var5 req i driver readings
    random_get_handler_loop var2 var3 var5 rest (i + 1) step.1 step.2

/-- Function `random_get_handler`. The code before the loop fills three
buffers: `var2` with the text of the current time, `var3` with the content of
the file `./tmp3`, and `var5` with the literal `"SLAVE"`. The first two come
from the environment and are arguments here. The function returns `true` on
every path and never assigns `*exception`. -/
def random_get_handler (driver : random_driver) (var2 var3 : String)
    (requests : List devsdk_commandrequest) (readings : List devsdk_commandresult)
    (exception : Option iot_data) : get_result :=
  let var5 := "SLAVE"
  let out := random_get_handler_loop var2 var3 var5 requests 0 driver readings
  ⟨true, out.1, out.2, exception⟩

/-! ## Write handler -/

/-- What `random_put_handler` leaves behind: its return value, the driver and
`*exception`. -/
structure put_result where
  ret : Bool
  driver : random_driver
  exception : Option iot_data
  deriving DecidableEq, Repr

/-- The `for` loop of `random_put_handler` from index `i` on; the first
argument is the part of `requests` from index `i`. The result is `none` when
the loop reaches a switch entry whose `values[i]` is missing or not a boolean,
where `iot_data_bool` has no defined result. -/
def random_put_handler_loop :
    List devsdk_commandrequest → Nat → List iot_data → random_driver → Option iot_data →
    Option put_result
  | [], _, _, driver, exception => some ⟨true, driver, exception⟩
  | req :: rest, i, values, driver, exception =>
    if req.resource.attrs = RANDOM_SW then
      match values[i]?.bind iot_data_bool with
      | some b =>
        random_put_handler_loop rest (i + 1) values { driver with state_flag := b } exception
      | none => none
    else
      some ⟨false, driver, some (iot_data.string MSG_PUT_NOT_VALID)⟩

/-- Function `random_put_handler`. -/
def random_put_handler (driver : random_driver) (requests : List devsdk_commandrequest)
    (values : List iot_data) (exception : Option iot_data) : Option put_result :=
  random_put_handler_loop requests 0 values driver exception

/-- Function `random_init`: the toggle starts as `false`. -/
def random_init : Bool × random_driver :=
  (true, ⟨false⟩)

/-- The content of a slot of `readings` after the loop body has run for a
request with tag `t`, where `old` is the content before: the value stored by
the matching `case`, or `old` when no `case` matches. -/
def reading_after (var2 var3 var5 : String) (driver : random_driver)
    (t : random_resourcetype) (old : devsdk_commandresult) : devsdk_commandresult :=
  if t = RANDOM_R100 then ⟨some (iot_data.string var2)⟩
  else if t = RANDOM_R1000 then ⟨some (iot_data.string var3)⟩
  else if t = RANDOM_R2000 then ⟨some (iot_data.string var5)⟩
  else if t = RANDOM_SW then ⟨some (iot_data.bool driver.state_flag)⟩
  else old

/-! ## Attribute construction: theorems -/

/-- C1: when `SensorType` is stored as the integer 1, 2 or 3 (whatever else
the bag holds, `SwitchID` included), `random_create_resource_attr` returns an
attribute object holding `RANDOM_R100`, `RANDOM_R1000` or `RANDOM_R2000`
respectively and leaves `*exception` as it was; the result is neither `NULL`
nor `RANDOM_SW`. -/
theorem create_attr_sensor_type_counter (attributes : iot_data_map)
    (exception : Option iot_data) (v : Int)
    (hpresent : iot_data_string_map_get attributes "SensorType" = some (iot_data.i64 v))
    (hv : v = 1 ∨ v = 2 ∨ v = 3) :
    (v = 1 → random_create_resource_attr attributes exception = (some RANDOM_R100, exception))
    ∧ (v = 2 → random_create_resource_attr attributes exception = (some RANDOM_R1000, exception))
    ∧ (v = 3 → random_create_resource_attr attributes exception = (some RANDOM_R2000, exception))
    ∧ (random_create_resource_attr attributes exception).1 ≠ none
    ∧ (random_create_resource_attr attributes exception).1 ≠ some RANDOM_SW
    ∧ (random_create_resource_attr attributes exception).2 = exception := by
  have hget : iot_data_string_map_get_i64 attributes "SensorType" 0 = v := by
    simp [iot_data_string_map_get_i64, hpresent]
  rcases hv with h | h | h <;> subst h <;>
    simp [random_create_resource_attr, hget]

/-- Instance of C1: a bag with `SensorType = 2` and a `SwitchID` entry. -/
theorem create_attr_sensor_type_counter_witness :
    random_create_resource_attr
        [("SwitchID", iot_data.string "sw0"), ("SensorType", iot_data.i64 2)] none
      = (some RANDOM_R1000, none) :=
  (create_attr_sensor_type_counter
    [("SwitchID", iot_data.string "sw0"), ("SensorType", iot_data.i64 2)] none 2
    (by decide) (by decide)).2.1 rfl

/-- C2 as stated fails at `SensorType = 0`: with a `SwitchID` entry the call
succeeds with `RANDOM_SW` and sets no exception, and without one it fails with
the missing-attribute message, not the out-of-range one. -/
theorem create_attr_sensor_type_zero_counterexample :
    iot_data_string_map_get
        [("SensorType", iot_data.i64 0), ("SwitchID", iot_data.string "sw0")] "SensorType"
      = some (iot_data.i64 0)
    ∧ random_create_resource_attr
        [("SensorType", iot_data.i64 0), ("SwitchID", iot_data.string "sw0")] none
      = (some RANDOM_SW, none)
    ∧ random_create_resource_attr [("SensorType", iot_data.i64 0)] none
      = (none, some (iot_data.string MSG_MISSING))
    ∧ random_create_resource_attr [("SensorType", iot_data.i64 0)] none
      ≠ (none, some (iot_data.string MSG_OUT_OF_RANGE)) := by
  decide

/-- C2, amended: when `SensorType` is stored as an integer other than 0, 1, 2
and 3 (negative values included, with or without `SwitchID`),
`random_create_resource_attr` returns `NULL` and sets the out-of-range
message; when it is stored as 0 the call behaves as it does on the bag without
a usable `SensorType`: `RANDOM_SW` if `SwitchID` is present, otherwise `NULL`
with the missing-attribute message. -/
theorem create_attr_sensor_type_out_of_range (attributes : iot_data_map)
    (exception : Option iot_data) (v : Int)
    (hpresent : iot_data_string_map_get attributes "SensorType" = some (iot_data.i64 v))
    (hv : v ≠ 1 ∧ v ≠ 2 ∧ v ≠ 3) :
    (v ≠ 0 → random_create_resource_attr attributes exception
        = (none, some (iot_data.string MSG_OUT_OF_RANGE)))
    ∧ (v = 0 → iot_data_string_map_get attributes "SwitchID" ≠ none →
        random_create_resource_attr attributes exception = (some RANDOM_SW, exception))
    ∧ (v = 0 → iot_data_string_map_get attributes "SwitchID" = none →
        random_create_resource_attr attributes exception
          = (none, some (iot_data.string MSG_MISSING))) := by
  have hget : iot_data_string_map_get_i64 attributes "SensorType" 0 = v := by
    simp [iot_data_string_map_get_i64, hpresent]
  obtain ⟨h1, h2, h3⟩ := hv
  refine ⟨?_, ?_, ?_⟩
  · intro h0
    simp [random_create_resource_attr, hget, h0, h1, h2, h3]
  · intro h0 hsw
    subst h0
    cases hs : iot_data_string_map_get attributes "SwitchID" with
    | none => exact absurd hs hsw
    | some d => simp [random_create_resource_attr, hget, hs]
  · intro h0 hsw
    subst h0
    simp [random_create_resource_attr, hget, hsw]

/-- Instance of the amended C2: `SensorType = -4` next to a `SwitchID`. -/
theorem create_attr_sensor_type_out_of_range_witness :
    random_create_resource_attr
        [("SensorType", iot_data.i64 (-4)), ("SwitchID", iot_data.string "sw0")] none
      = (none, some (iot_data.string MSG_OUT_OF_RANGE)) :=
  (create_attr_sensor_type_out_of_range
    [("SensorType", iot_data.i64 (-4)), ("SwitchID", iot_data.string "sw0")] none (-4)
    (by decide) (by decide)).1 (by decide)

/-- C3: when the bag has a `SwitchID` entry and no `SensorType` entry,
`random_create_resource_attr` returns an attribute object holding `RANDOM_SW`
and leaves `*exception` as it was, so no exception is set. -/
theorem create_attr_switch (attributes : iot_data_map) (exception : Option iot_data)
    (hswitch : iot_data_string_map_get attributes "SwitchID" ≠ none)
    (hsensor : iot_data_string_map_get attributes "SensorType" = none) :
    random_create_resource_attr attributes exception = (some RANDOM_SW, exception)
    ∧ (exception = none → (random_create_resource_attr attributes exception).2 = none) := by
  have hget : iot_data_string_map_get_i64 attributes "SensorType" 0 = 0 := by
    simp [iot_data_string_map_get_i64, hsensor]
  have hres : random_create_resource_attr attributes exception = (some RANDOM_SW, exception) := by
    cases hs : iot_data_string_map_get attributes "SwitchID" with
    | none => exact absurd hs hswitch
    | some d => simp [random_create_resource_attr, hget, hs]
  refine ⟨hres, ?_⟩
  intro he
  rw [hres]
  exact he

/-- Instance of C3: a bag holding only `SwitchID`. -/
theorem create_attr_switch_witness :
    random_create_resource_attr [("SwitchID", iot_data.string "sw0")] none
      = (some RANDOM_SW, none) :=
  (create_attr_switch [("SwitchID", iot_data.string "sw0")] none (by decide) (by decide)).1

/-- C4: when the bag has neither a `SensorType` entry nor a `SwitchID` entry,
`random_create_resource_attr` returns `NULL` and sets `*exception` to the
missing-attribute message, which differs from the out-of-range message. -/
theorem create_attr_missing (attributes : iot_data_map) (exception : Option iot_data)
    (hsensor : iot_data_string_map_get attributes "SensorType" = none)
    (hswitch : iot_data_string_map_get attributes "SwitchID" = none) :
    random_create_resource_attr attributes exception
      = (none, some (iot_data.string MSG_MISSING))
    ∧ (random_create_resource_attr attributes exception).2
      ≠ some (iot_data.string MSG_OUT_OF_RANGE) := by
  have hget : iot_data_string_map_get_i64 attributes "SensorType" 0 = 0 := by
    simp [iot_data_string_map_get_i64, hsensor]
  have hres : random_create_resource_attr attributes exception
      = (none, some (iot_data.string MSG_MISSING)) := by
    simp [random_create_resource_attr, hget, hswitch]
  refine ⟨hres, ?_⟩
  rw [hres]
  decide

/-- Instance of C4: a bag holding only an unrelated attribute. -/
theorem create_attr_missing_witness :
    random_create_resource_attr [("Units", iot_data.string "ns")] none
      = (none, some (iot_data.string MSG_MISSING)) :=
  (create_attr_missing [("Units", iot_data.string "ns")] none (by decide) (by decide)).1

/-! ## Read handler: lemmas on the loop -/

/-- The loop body of `random_get_handler` does not change the driver. -/
theorem get_body_driver (var2 var3 var5 : String) (req : devsdk_commandrequest) (i : Nat)
    (driver : random_driver) (readings : List devsdk_commandresult) :
    (random_get_handler_body var2 var3 var5 req i driver readings).1 = driver := by
  unfold random_get_handler_body
  simp only []
  split_ifs <;> rfl

/-- The loop body of `random_get_handler` keeps the number of reading slots. -/
theorem get_body_length (var2 var3 var5 : String) (req : devsdk_commandrequest) (i : Nat)
    (driver : random_driver) (readings : List devsdk_commandresult) :
    (random_get_handler_body var2 var3 var5 req i driver readings).2.length
      = readings.length := by
  unfold random_get_handler_body
  simp only []
  split_ifs <;> simp

/-- The loop body of `random_get_handler` at index `i` touches slot `i` only. -/
theorem get_body_getElem? (var2 var3 var5 : String) (req : devsdk_commandrequest) (i : Nat)
    (driver : random_driver) (readings : List devsdk_commandresult) (j : Nat) :
    (random_get_handler_body var2 var3 var5 req i driver readings).2[j]?
      = if j = i then
          readings[j]?.map (reading_after var2 var3 var5 driver req.resource.attrs)
        else readings[j]? := by
  unfold random_get_handler_body reading_after
  simp only []
  by_cases hji : j = i
  · subst hji
    rw [if_pos rfl]
    split_ifs <;> cases hr : readings[j]? <;> simp [List.getElem?_set', hr]
  · have hij : i ≠ j := fun h => hji h.symm
    rw [if_neg hji]
    split_ifs <;> simp [List.getElem?_set_ne, hij]

/-- The loop of `random_get_handler` does not change the driver. -/
theorem get_loop_driver (var2 var3 var5 : String) (requests : List devsdk_commandrequest) :
    ∀ (i : Nat) (driver : random_driver) (readings : List devsdk_commandresult),
      (random_get_handler_loop var2 var3 var5 requests i driver readings).1 = driver := by
  induction requests with
  | nil => intro i driver readings; rfl
  | cons req rest ih =>
    intro i driver readings
    simp only [random_get_handler_loop]
    rw [ih, get_body_driver]

/-- The loop of `random_get_handler` keeps the number of reading slots. -/
theorem get_loop_length (var2 var3 var5 : String) (requests : List devsdk_commandrequest) :
    ∀ (i : Nat) (driver : random_driver) (readings : List devsdk_commandresult),
      (random_get_handler_loop var2 var3 var5 requests i driver readings).2.length
        = readings.length := by
  induction requests with
  | nil => intro i driver readings; rfl
  | cons req rest ih =>
    intro i driver readings
    simp only [random_get_handler_loop]
    rw [ih, get_body_length]

/-- Slot `j` after the loop of `random_get_handler` started at index `i`: kept
below `i` and past the requests, otherwise set from the tag of request `j - i`. -/
theorem get_loop_getElem? (var2 var3 var5 : String) (requests : List devsdk_commandrequest) :
    ∀ (i : Nat) (driver : random_driver) (readings : List devsdk_commandresult) (j : Nat),
      (random_get_handler_loop var2 var3 var5 requests i driver readings).2[j]?
        = if j < i then readings[j]?
          else match requests[j - i]? with
            | some r => readings[j]?.map (reading_after var2 var3 var5 driver r.resource.attrs)
            | none => readings[j]? := by
  induction requests with
  | nil =>
    intro i driver readings j
    simp [random_get_handler_loop]
  | cons req rest ih =>
    intro i driver readings j
    simp only [random_get_handler_loop]
    rw [ih, get_body_driver, get_body_getElem?]
    rcases Nat.lt_trichotomy j i with hlt | heq | hgt
    · have h1 : j < i + 1 := by omega
      have h2 : j ≠ i := by omega
      simp [h1, h2, hlt]
    · subst heq
      simp
    · have h1 : ¬ j < i + 1 := by omega
      have h2 : ¬ j < i := by omega
      have h3 : j ≠ i := by omega
      have h4 : j - i = (j - (i + 1)) + 1 := by omega
      simp only [h1, h2, h3, if_false]
      rw [h4, List.getElem?_cons_succ]

/-! ## Write handler: lemmas on the loop -/

/-- The loop of `random_put_handler` started at index `i`, when the next `k`
requests are switch entries with boolean payloads and the one after is not. -/
theorem put_loop_fail_fast (values : List iot_data) (exception : Option iot_data)
    (payload : Nat → Bool) :
    ∀ (k : Nat) (requests : List devsdk_commandrequest) (i : Nat) (driver : random_driver)
      (bad : devsdk_commandrequest),
      (∀ j, j < k → (∃ r, requests[j]? = some r ∧ r.resource.attrs = RANDOM_SW)
          ∧ values[i + j]? = some (iot_data.bool (payload (i + j)))) →
      requests[k]? = some bad → bad.resource.attrs ≠ RANDOM_SW →
      random_put_handler_loop requests i values driver exception
        = some ⟨false, ⟨if k = 0 then driver.state_flag else payload (i + k - 1)⟩,
            some (iot_data.string MSG_PUT_NOT_VALID)⟩ := by
  intro k
  induction k with
  | zero =>
    intro requests i driver bad _ hbad hkind
    cases requests with
    | nil => simp at hbad
    | cons r rest =>
      simp only [List.getElem?_cons_zero, Option.some.injEq] at hbad
      subst hbad
      simp [random_put_handler_loop, hkind]
  | succ k ih =>
    intro requests i driver bad hswitch hbad hkind
    cases requests with
    | nil => simp at hbad
    | cons r rest =>
      obtain ⟨⟨r0, hr0, hsw⟩, hval⟩ := hswitch 0 (Nat.succ_pos k)
      simp only [List.getElem?_cons_zero, Option.some.injEq] at hr0
      subst hr0
      simp only [Nat.add_zero] at hval
      simp only [List.getElem?_cons_succ] at hbad
      have hrest : ∀ j, j < k → (∃ r, rest[j]? = some r ∧ r.resource.attrs = RANDOM_SW)
          ∧ values[i + 1 + j]? = some (iot_data.bool (payload (i + 1 + j))) := by
        intro j hj
        obtain ⟨⟨r1, hr1, hsw1⟩, hval1⟩ := hswitch (j + 1) (by omega)
        simp only [List.getElem?_cons_succ] at hr1
        have hidx : i + (j + 1) = i + 1 + j := by omega
        rw [hidx] at hval1
        exact ⟨⟨r1, hr1, hsw1⟩, hval1⟩
      have hstep := ih rest (i + 1) ⟨payload i⟩ bad hrest hbad hkind
      have hb : values[i]?.bind iot_data_bool = some (payload i) := by
        rw [hval]; rfl
      simp only [random_put_handler_loop, hsw, hb, if_true]
      rw [hstep]
      by_cases hk : k = 0
      · subst hk
        simp
      · have hidx : i + 1 + k - 1 = i + (k + 1) - 1 := by omega
        simp [hk, hidx]

/-! ## Handlers: theorems -/

/-- C5: from every driver state and for every boolean `b`, `random_put_handler`
accepts the batch of one switch entry with payload `b` (it returns `true` and
leaves `*exception` as it was), and `random_get_handler` called next on one
switch resource returns `true` and stores the boolean `b` as the reading. -/
theorem switch_write_read_round_trip (driver : random_driver) (b : Bool)
    (exception exception2 : Option iot_data) (var2 var3 : String)
    (slot : devsdk_commandresult) :
    ∃ w : put_result,
      random_put_handler driver [⟨⟨RANDOM_SW⟩⟩] [iot_data.bool b] exception = some w
      ∧ w.ret = true ∧ w.exception = exception
      ∧ random_get_handler w.driver var2 var3 [⟨⟨RANDOM_SW⟩⟩] [slot] exception2
          = ⟨true, w.driver, [⟨some (iot_data.bool b)⟩], exception2⟩ := by
  refine ⟨⟨true, ⟨b⟩, exception⟩, ?_, rfl, rfl, ?_⟩
  · simp [random_put_handler, random_put_handler_loop, iot_data_bool]
  · simp [random_get_handler, random_get_handler_loop, random_get_handler_body]

/-- C6: when the entries of a write batch before index `k` are switch entries
with boolean payloads `payload i` and the entry at index `k` is not a switch
entry, `random_put_handler` returns `false` with the exception
"PUT not valid for this resource"; the toggle afterwards is `payload (k - 1)`,
or its value before the call when `k = 0`; and any batch that agrees with this
one up to index `k` gives the same outcome, whatever follows index `k`. -/
theorem put_handler_fail_fast (driver : random_driver)
    (requests : List devsdk_commandrequest) (values : List iot_data)
    (exception : Option iot_data) (k : Nat) (payload : Nat → Bool)
    (bad : devsdk_commandrequest)
    (hswitch : ∀ i, i < k → (∃ r, requests[i]? = some r ∧ r.resource.attrs = RANDOM_SW)
        ∧ values[i]? = some (iot_data.bool (payload i)))
    (hbad : requests[k]? = some bad) (hkind : bad.resource.attrs ≠ RANDOM_SW) :
    random_put_handler driver requests values exception
      = some ⟨false, ⟨if k = 0 then driver.state_flag else payload (k - 1)⟩,
          some (iot_data.string MSG_PUT_NOT_VALID)⟩
    ∧ ∀ (requests2 : List devsdk_commandrequest) (values2 : List iot_data),
        requests2.take (k + 1) = requests.take (k + 1) → values2.take k = values.take k →
        random_put_handler driver requests2 values2 exception
          = random_put_handler driver requests values exception := by
  have key : ∀ (requests2 : List devsdk_commandrequest) (values2 : List iot_data),
      requests2.take (k + 1) = requests.take (k + 1) → values2.take k = values.take k →
      random_put_handler driver requests2 values2 exception
        = some ⟨false, ⟨if k = 0 then driver.state_flag else payload (k - 1)⟩,
            some (iot_data.string MSG_PUT_NOT_VALID)⟩ := by
    intro requests2 values2 hreq hval
    have hreq_at : ∀ i, i < k + 1 → requests2[i]? = requests[i]? := by
      intro i hi
      rw [← List.getElem?_take_of_lt hi, hreq, List.getElem?_take_of_lt hi]
    have hval_at : ∀ i, i < k → values2[i]? = values[i]? := by
      intro i hi
      rw [← List.getElem?_take_of_lt hi, hval, List.getElem?_take_of_lt hi]
    have hloop := put_loop_fail_fast values2 exception payload k requests2 0 driver bad
      (by
        intro j hj
        obtain ⟨⟨r, hr, hsw⟩, hv⟩ := hswitch j hj
        refine ⟨⟨r, ?_, hsw⟩, ?_⟩
        · rw [hreq_at j (by omega)]; exact hr
        · simp only [Nat.zero_add]
          rw [hval_at j hj]; exact hv)
      (by rw [hreq_at k (by omega)]; exact hbad) hkind
    simpa [random_put_handler] using hloop
  refine ⟨key requests values rfl rfl, ?_⟩
  intro requests2 values2 hreq hval
  rw [key requests2 values2 hreq hval, key requests values rfl rfl]

/-- Instance of C6: the batch `[Switch(true), CounterA(5)]`, sent while the
toggle is `false`, is rejected and leaves the toggle `true`. -/
theorem put_handler_fail_fast_witness :
    random_put_handler ⟨false⟩ [⟨⟨RANDOM_SW⟩⟩, ⟨⟨RANDOM_R100⟩⟩]
        [iot_data.bool true, iot_data.i64 5] none
      = some ⟨false, ⟨true⟩, some (iot_data.string MSG_PUT_NOT_VALID)⟩ :=
  (put_handler_fail_fast ⟨false⟩ [⟨⟨RANDOM_SW⟩⟩, ⟨⟨RANDOM_R100⟩⟩]
    [iot_data.bool true, iot_data.i64 5] none 1 (fun _ => true) ⟨⟨RANDOM_R100⟩⟩
    (by
      intro i hi
      have h0 : i = 0 := by omega
      subst h0
      exact ⟨⟨⟨⟨RANDOM_SW⟩⟩, rfl, rfl⟩, rfl⟩)
    rfl (by decide)).1

/-- C7: for a read batch of `N` requests whose tags are all among the four
enumerators, with `N` reading slots supplied, `random_get_handler` returns
`true`, sets no exception, and leaves exactly `N` readings; the reading at
index `i` is fixed by the tag of request `i` alone: the string `var2` for
`RANDOM_R100`, the string `var3` for `RANDOM_R1000`, the string `"SLAVE"` for
`RANDOM_R2000`, and the toggle as a boolean for `RANDOM_SW`. -/
theorem get_handler_order_preserved (driver : random_driver) (var2 var3 : String)
    (requests : List devsdk_commandrequest) (readings : List devsdk_commandresult)
    (exception : Option iot_data)
    (hlen : readings.length = requests.length)
    (hkinds : ∀ r ∈ requests, r.resource.attrs = RANDOM_R100 ∨ r.resource.attrs = RANDOM_R1000
        ∨ r.resource.attrs = RANDOM_R2000 ∨ r.resource.attrs = RANDOM_SW) :
    (random_get_handler driver var2 var3 requests readings exception).ret = true
    ∧ (random_get_handler driver var2 var3 requests readings exception).exception = exception
    ∧ (random_get_handler driver var2 var3 requests readings exception).readings.length
        = requests.length
    ∧ ∀ (i : Nat) (r : devsdk_commandrequest), requests[i]? = some r →
        (r.resource.attrs = RANDOM_R100 ∨ r.resource.attrs = RANDOM_R1000
          ∨ r.resource.attrs = RANDOM_R2000 ∨ r.resource.attrs = RANDOM_SW)
        ∧ (r.resource.attrs = RANDOM_R100 →
            (random_get_handler driver var2 var3 requests readings exception).readings[i]?
              = some ⟨some (iot_data.string var2)⟩)
        ∧ (r.resource.attrs = RANDOM_R1000 →
            (random_get_handler driver var2 var3 requests readings exception).readings[i]?
              = some ⟨some (iot_data.string var3)⟩)
        ∧ (r.resource.attrs = RANDOM_R2000 →
            (random_get_handler driver var2 var3 requests readings exception).readings[i]?
              = some ⟨some (iot_data.string "SLAVE")⟩)
        ∧ (r.resource.attrs = RANDOM_SW →
            (random_get_handler driver var2 var3 requests readings exception).readings[i]?
              = some ⟨some (iot_data.bool driver.state_flag)⟩) := by
  refine ⟨rfl, rfl, ?_, ?_⟩
  · simp only [random_get_handler]
    rw [get_loop_length, hlen]
  · intro i r hr
    have hi : i < requests.length := by
      rcases Nat.lt_or_ge i requests.length with h | h
      · exact h
      · rw [List.getElem?_eq_none_iff.mpr h] at hr
        cases hr
    have hold : readings[i]? = some (readings.get ⟨i, by omega⟩) := by
      simp [List.getElem?_eq_getElem, hlen, hi]
    have hout : (random_get_handler driver var2 var3 requests readings exception).readings[i]?
        = some (reading_after var2 var3 "SLAVE" driver r.resource.attrs
            (readings.get ⟨i, by omega⟩)) := by
      simp only [random_get_handler]
      rw [get_loop_getElem?]
      simp [hr, hold]
    refine ⟨hkinds r (List.getElem?_mem hr), ?_, ?_, ?_, ?_⟩ <;>
      intro ht <;> rw [hout] <;> simp [reading_after, ht]

/-- Instance of C7: a batch of the four kinds in mixed order. -/
theorem get_handler_order_preserved_witness :
    (random_get_handler ⟨true⟩ "Thu" "offset" [⟨⟨RANDOM_SW⟩⟩, ⟨⟨RANDOM_R2000⟩⟩, ⟨⟨RANDOM_R100⟩⟩]
        [⟨none⟩, ⟨none⟩, ⟨none⟩] none).readings.length = 3 :=
  (get_handler_order_preserved ⟨true⟩ "Thu" "offset"
    [⟨⟨RANDOM_SW⟩⟩, ⟨⟨RANDOM_R2000⟩⟩, ⟨⟨RANDOM_R100⟩⟩] [⟨none⟩, ⟨none⟩, ⟨none⟩] none
    rfl (by decide)).2.2.1

/-- C8: `random_get_handler` leaves the toggle as it was for every batch, so
two reads of a switch resource in succession, with no write between them,
both store the same boolean, the toggle before the first read. -/
theorem get_handler_read_idempotent (driver : random_driver) (var2 var3 var2b var3b : String)
    (requests : List devsdk_commandrequest) (readings : List devsdk_commandresult)
    (exception exception1 exception2 : Option iot_data)
    (slot1 slot2 : devsdk_commandresult) :
    (random_get_handler driver var2 var3 requests readings exception).driver = driver
    ∧ (random_get_handler driver var2 var3 [⟨⟨RANDOM_SW⟩⟩] [slot1] exception1).readings
        = [⟨some (iot_data.bool driver.state_flag)⟩]
    ∧ (random_get_handler
          (random_get_handler driver var2 var3 [⟨⟨RANDOM_SW⟩⟩] [slot1] exception1).driver
          var2b var3b [⟨⟨RANDOM_SW⟩⟩] [slot2] exception2).readings
        = (random_get_handler driver var2 var3 [⟨⟨RANDOM_SW⟩⟩] [slot1] exception1).readings := by
  refine ⟨?_, ?_, ?_⟩
  · simp only [random_get_handler]
    exact get_loop_driver var2 var3 "SLAVE" requests 0 driver readings
  · simp [random_get_handler, random_get_handler_loop, random_get_handler_body]
  · simp [random_get_handler, random_get_handler_loop, random_get_handler_body]

/-- Every attribute object made by `random_create_resource_attr` holds one of
the four enumerators, so a request built from the driver's own attribute
objects never carries another tag. -/
theorem create_attr_tag_known (attributes : iot_data_map) (exception : Option iot_data)
    (t : random_resourcetype)
    (hmade : (random_create_resource_attr attributes exception).1 = some t) :
    t = RANDOM_R100 ∨ t = RANDOM_R1000 ∨ t = RANDOM_R2000 ∨ t = RANDOM_SW := by
  unfold random_create_resource_attr at hmade
  simp only [] at hmade
  split_ifs at hmade <;> simp at hmade <;> subst hmade <;> simp

end DeviceSimplePTP
